import Mathlib

/-!
Verification of the smart-home device registry (`Práctica3.py`).

The Python classes are embedded shallowly: each device class becomes a
structure whose string-valued `_estado` field is modelled by an enumeration
of the states the class actually assigns, each mutating method becomes a
pure function returning the updated device (paired with a result value when
the method has a rejection branch), and the registry class `CasaInteligente`
becomes a structure holding the ordered device list.  The printed messages
of the source are modelled by result values naming the branch taken, and by
`mostrar_datos` returning the report line as a string.
-/

/-- States assigned to a `LuzInteligente` by the source: `"apagado"` and
`"encendido"`. -/
inductive EstadoLuz
  | apagado
  | encendido
deriving DecidableEq

/-- States assigned to a `CamaraSeguridad` by the source: `"apagado"`,
`"standby"` and `"grabando"`. -/
inductive EstadoCamara
  | apagado
  | standby
  | grabando
deriving DecidableEq

/-- States assigned to a `SensorMovimiento` by the source: `"activo"` and
`"inactivo"`. -/
inductive EstadoSensor
  | activo
  | inactivo
deriving DecidableEq

/-- Result value naming the branch a method takes (the source reports the
branch with a `print`). -/
inductive Resultado
  | ok
  | invalidArgument
  | invalidTransition
  | alreadyRecording
deriving DecidableEq

/-- `LuzInteligente`: id, `_estado`, `_intensidad`. -/
structure Luz where
  id_dispositivo : String
  estado : EstadoLuz
  intensidad : Int
deriving DecidableEq

/-- `CamaraSeguridad`: id, `_estado`, `_grabando`. -/
structure Camara where
  id_dispositivo : String
  estado : EstadoCamara
  grabando : Bool
deriving DecidableEq

/-- `SensorMovimiento`: id, `_estado`, `_movimiento_detectado`. -/
structure Sensor where
  id_dispositivo : String
  estado : EstadoSensor
  movimiento_detectado : Bool
deriving DecidableEq

/-- `LuzInteligente.__init__(id, intensidad)`: the base constructor sets
`_estado = "apagado"`, then `_intensidad` is set to the argument
(default `0` at call sites that omit it). -/
def LuzInteligente (id_dispositivo : String) (intensidad : Int) : Luz :=
  { id_dispositivo := id_dispositivo, estado := EstadoLuz.apagado, intensidad := intensidad }

/-- `CamaraSeguridad.__init__(id)`: `_estado = "apagado"`, `_grabando = False`. -/
def CamaraSeguridad (id_dispositivo : String) : Camara :=
  { id_dispositivo := id_dispositivo, estado := EstadoCamara.apagado, grabando := false }

/-- `LuzInteligente.intensidad` setter: accepts `0 <= valor <= 100` and stores
it (whatever the current state); otherwise reports an error and stores
nothing. -/
def Luz.setIntensidad (l : Luz) (valor : Int) : Resultado × Luz :=
  if 0 ≤ valor ∧ valor ≤ 100 then
    (Resultado.ok, { l with intensidad := valor })
  else
    (Resultado.invalidArgument, l)

/-- `LuzInteligente.encender`: `_estado = "encendido"`; if `_intensidad == 0`
it becomes `50`. -/
def Luz.encender (l : Luz) : Luz :=
  { l with estado := EstadoLuz.encendido,
           intensidad := if l.intensidad = 0 then 50 else l.intensidad }

/-- `LuzInteligente.apagar`: `_estado = "apagado"`, `_intensidad = 0`. -/
def Luz.apagar (l : Luz) : Luz :=
  { l with estado := EstadoLuz.apagado, intensidad := 0 }

/-- `CamaraSeguridad.encender`: `_estado = "standby"` (and nothing else). -/
def Camara.encender (c : Camara) : Camara :=
  { c with estado := EstadoCamara.standby }

/-- `CamaraSeguridad.detener_grabacion`: only if `_grabando`, clear it and set
`_estado = "standby"`. -/
def Camara.detener_grabacion (c : Camara) : Camara :=
  if c.grabando then
    { c with grabando := false, estado := EstadoCamara.standby }
  else
    c

/-- `CamaraSeguridad.apagar`: first `_estado = "apagado"`, then, if
`_grabando`, call `detener_grabacion` (which overwrites `_estado` with
`"standby"`). -/
def Camara.apagar (c : Camara) : Camara :=
  let c1 : Camara := { c with estado := EstadoCamara.apagado }
  if c1.grabando then Camara.detener_grabacion c1 else c1

/-- `CamaraSeguridad.iniciar_grabacion`: from `"standby"` set `_grabando` and
`_estado = "grabando"`; from `"apagado"` report failure; otherwise report
"Ya estaba grabando". -/
def Camara.iniciar_grabacion (c : Camara) : Resultado × Camara :=
  match c.estado with
  | EstadoCamara.standby =>
      (Resultado.ok, { c with grabando := true, estado := EstadoCamara.grabando })
  | EstadoCamara.apagado =>
      (Resultado.invalidTransition, c)
  | EstadoCamara.grabando =>
      (Resultado.alreadyRecording, c)

/-- `SensorMovimiento.encender`: `_estado = "activo"`, flag cleared. -/
def Sensor.encender (s : Sensor) : Sensor :=
  { s with estado := EstadoSensor.activo, movimiento_detectado := false }

/-- `SensorMovimiento.apagar`: `_estado = "inactivo"`, flag cleared. -/
def Sensor.apagar (s : Sensor) : Sensor :=
  { s with estado := EstadoSensor.inactivo, movimiento_detectado := false }

/-- `SensorMovimiento.simular_movimiento`: sets the flag only while
`"activo"`; otherwise reports failure. -/
def Sensor.simular_movimiento (s : Sensor) : Resultado × Sensor :=
  match s.estado with
  | EstadoSensor.activo =>
      (Resultado.ok, { s with movimiento_detectado := true })
  | EstadoSensor.inactivo =>
      (Resultado.invalidTransition, s)

def EstadoLuz.aCadena : EstadoLuz → String
  | EstadoLuz.apagado => "apagado"
  | EstadoLuz.encendido => "encendido"

def EstadoCamara.aCadena : EstadoCamara → String
  | EstadoCamara.apagado => "apagado"
  | EstadoCamara.standby => "standby"
  | EstadoCamara.grabando => "grabando"

def EstadoSensor.aCadena : EstadoSensor → String
  | EstadoSensor.activo => "activo"
  | EstadoSensor.inactivo => "inactivo"

/-- `LuzInteligente.mostrar_datos`: the printed report line. -/
def Luz.mostrar_datos (l : Luz) : String :=
  "[Luz] ID: " ++ l.id_dispositivo ++ " | Estado: " ++ EstadoLuz.aCadena l.estado
    ++ " | Intensidad: " ++ toString l.intensidad ++ "%"

/-- `CamaraSeguridad.mostrar_datos`: the printed report line. -/
def Camara.mostrar_datos (c : Camara) : String :=
  "[Cámara] ID: " ++ c.id_dispositivo ++ " | Estado: " ++ EstadoCamara.aCadena c.estado
    ++ " | Grabando: " ++ (if c.grabando then "Sí" else "No")

/-- `SensorMovimiento.mostrar_datos`: the printed report line. -/
def Sensor.mostrar_datos (s : Sensor) : String :=
  "[Sensor] ID: " ++ s.id_dispositivo ++ " | Estado: " ++ EstadoSensor.aCadena s.estado
    ++ " | Movimiento Detectado: " ++ (if s.movimiento_detectado then "Sí" else "No")

/-- The closed set of concrete `Dispositivo` subclasses. -/
inductive Dispositivo
  | luz : Luz → Dispositivo
  | camara : Camara → Dispositivo
  | sensor : Sensor → Dispositivo
deriving DecidableEq

def Dispositivo.mostrar_datos : Dispositivo → String
  | Dispositivo.luz l => Luz.mostrar_datos l
  | Dispositivo.camara c => Camara.mostrar_datos c
  | Dispositivo.sensor s => Sensor.mostrar_datos s

/-- `CasaInteligente`: name plus the ordered `_dispositivos` list. -/
structure CasaInteligente where
  nombre : String
  dispositivos : List Dispositivo
deriving DecidableEq

/-- `CasaInteligente.mostrar_todos`: the report lines of all devices, in
insertion order. -/
def CasaInteligente.mostrar_todos (casa : CasaInteligente) : List String :=
  casa.dispositivos.map Dispositivo.mostrar_datos

/-- The scanning loop of `ejecutar_escena`: the first `SensorMovimiento` in
registry order whose `movimiento_detectado` is true (sensors with a clear
flag, and devices of other kinds, are skipped). -/
def buscarSensorActivado : List Dispositivo → Option Sensor
  | [] => none
  | Dispositivo.sensor s :: ds =>
      if s.movimiento_detectado then some s else buscarSensorActivado ds
  | _ :: ds => buscarSensorActivado ds

/-- The action the scene applies to each device in the mutation loop:
a `LuzInteligente` is switched on and set to intensity `100`; a
`CamaraSeguridad` is switched on first when `"apagado"` and then told to
record; a `SensorMovimiento` is untouched. -/
def accionAlerta : Dispositivo → Dispositivo
  | Dispositivo.luz l =>
      Dispositivo.luz (Luz.setIntensidad (Luz.encender l) 100).2
  | Dispositivo.camara c =>
      let c1 : Camara := if c.estado = EstadoCamara.apagado then Camara.encender c else c
      Dispositivo.camara (Camara.iniciar_grabacion c1).2
  | Dispositivo.sensor s => Dispositivo.sensor s

/-- Outcome of a scene run, naming the branch the source reports. -/
inductive EscenaResultado
  | motionHandled : String → EscenaResultado
  | noMotionDetected
  | unknownScene
deriving DecidableEq

/-- `CasaInteligente.ejecutar_escena`: for `"alerta_movimiento"`, scan for a
triggered sensor, and if one is found run the action loop over every device;
any other name is reported as not recognized and nothing is touched. -/
def CasaInteligente.ejecutar_escena (casa : CasaInteligente) (nombre_escena : String) :
    EscenaResultado × CasaInteligente :=
  if nombre_escena = "alerta_movimiento" then
    match buscarSensorActivado casa.dispositivos with
    | some s =>
        (EscenaResultado.motionHandled s.id_dispositivo,
         { casa with dispositivos := casa.dispositivos.map accionAlerta })
    | none => (EscenaResultado.noMotionDetected, casa)
  else
    (EscenaResultado.unknownScene, casa)

/-- Operations available on a light, for quantifying over call sequences. -/
inductive OpLuz
  | encender
  | apagar
  | setIntensidad : Int → OpLuz
deriving DecidableEq

def aplicarOpLuz (l : Luz) : OpLuz → Luz
  | OpLuz.encender => Luz.encender l
  | OpLuz.apagar => Luz.apagar l
  | OpLuz.setIntensidad v => (Luz.setIntensidad l v).2

def aplicarOpsLuz (l : Luz) (ops : List OpLuz) : Luz :=
  ops.foldl aplicarOpLuz l

/-- Operations available on a camera, for quantifying over call sequences. -/
inductive OpCamara
  | encender
  | apagar
  | iniciar_grabacion
  | detener_grabacion
deriving DecidableEq

def aplicarOpCamara (c : Camara) : OpCamara → Camara
  | OpCamara.encender => Camara.encender c
  | OpCamara.apagar => Camara.apagar c
  | OpCamara.iniciar_grabacion => (Camara.iniciar_grabacion c).2
  | OpCamara.detener_grabacion => Camara.detener_grabacion c

def aplicarOpsCamara (c : Camara) (ops : List OpCamara) : Camara :=
  ops.foldl aplicarOpCamara c

/-- Spec-side predicate: some sensor in the list has its motion flag set. -/
def algunSensorConMovimiento (ds : List Dispositivo) : Bool :=
  ds.any fun d =>
    match d with
    | Dispositivo.sensor s => s.movimiento_detectado
    | _ => false

/-- Spec-side predicate: no sensor in the list has its motion flag set. -/
def ningunSensorConMovimiento (ds : List Dispositivo) : Bool :=
  ds.all fun d =>
    match d with
    | Dispositivo.sensor s => !s.movimiento_detectado
    | _ => true

/-- The sensors of a device list, in order. -/
def sensoresDe : List Dispositivo → List Sensor
  | [] => []
  | Dispositivo.sensor s :: ds => s :: sensoresDe ds
  | _ :: ds => sensoresDe ds

/-!
Theorems settling the claims.
-/

/-- C1: the claim says `apagar` on a recording camera transitions it to the
off state with the recording stopped.  The code sets `_estado = "apagado"`
and then calls `detener_grabacion`, which overwrites `_estado` with
`"standby"`: the camera ends powered-off-in-name-only, its report showing
state `standby`.  This theorem evaluates the code at a recording camera and
exhibits the final state `standby` (not `apagado`), with the flag cleared,
and the report line showing `standby`. -/
theorem C1_apagar_grabando_termina_en_standby :
    (Camara.apagar { id_dispositivo := "CAM-ENTRADA-01", estado := EstadoCamara.grabando, grabando := true }).estado
      = EstadoCamara.standby ∧
    (Camara.apagar { id_dispositivo := "CAM-ENTRADA-01", estado := EstadoCamara.grabando, grabando := true }).grabando
      = false ∧
    Camara.mostrar_datos (Camara.apagar { id_dispositivo := "CAM-ENTRADA-01", estado := EstadoCamara.grabando, grabando := true })
      = "[Cámara] ID: CAM-ENTRADA-01 | Estado: standby | Grabando: No" := by
  refine ⟨rfl, rfl, rfl⟩

/-- C2: the claim says every operation preserves the equivalence between the
`_grabando` flag and the state being `"grabando"`.  The code's `encender`
sets `_estado = "standby"` without clearing `_grabando`, so calling it on a
recording camera leaves the flag true with state `standby`.  This theorem
evaluates the operation sequence `encender; iniciar_grabacion; encender` on a
fresh camera and exhibits the inconsistent pair. -/
theorem C2_encender_durante_grabacion_rompe_equivalencia :
    (aplicarOpsCamara (CamaraSeguridad "CAM-PATIO-01")
        [OpCamara.encender, OpCamara.iniciar_grabacion, OpCamara.encender]).estado
      = EstadoCamara.standby ∧
    (aplicarOpsCamara (CamaraSeguridad "CAM-PATIO-01")
        [OpCamara.encender, OpCamara.iniciar_grabacion, OpCamara.encender]).grabando
      = true := by
  refine ⟨rfl, rfl⟩

/-- C9: `encender` on a light sets the state to `encendido`; an intensity of
`0` becomes the default `50`, any other intensity is preserved. -/
theorem C9_encender_luz_estado_e_intensidad (l : Luz) :
    (Luz.encender l).estado = EstadoLuz.encendido ∧
    (Luz.encender l).intensidad = (if l.intensidad = 0 then 50 else l.intensidad) := by
  refine ⟨rfl, rfl⟩

/-- C7: `setIntensidad` with a value outside `[0, 100]` reports
`invalidArgument` and returns the light unchanged (state and intensity
untouched). -/
theorem C7_setIntensidad_fuera_de_rango (l : Luz) (v : Int) (h : v < 0 ∨ 100 < v) :
    Luz.setIntensidad l v = (Resultado.invalidArgument, l) := by
  have hc : ¬ (0 ≤ v ∧ v ≤ 100) := by
    rintro ⟨h1, h2⟩
    rcases h with h | h <;> omega
  simp [Luz.setIntensidad, hc]

/-- C7 witness: a concrete out-of-range call, `v = 150`. -/
theorem C7_setIntensidad_fuera_de_rango_testigo :
    ((150 : Int) < 0 ∨ (100 : Int) < 150) ∧
    Luz.setIntensidad (LuzInteligente "LUZ-SALA-01" 20) 150
      = (Resultado.invalidArgument, LuzInteligente "LUZ-SALA-01" 20) :=
  ⟨Or.inr (by decide),
   C7_setIntensidad_fuera_de_rango (LuzInteligente "LUZ-SALA-01" 20) 150 (Or.inr (by decide))⟩

/-- C8: `iniciar_grabacion` on a camera whose state is `apagado` reports
`invalidTransition` and returns the camera completely unchanged; in
particular the state is still `apagado`, and a clear recording flag stays
clear. -/
theorem C8_iniciar_grabacion_apagada (c : Camara) (h : c.estado = EstadoCamara.apagado) :
    Camara.iniciar_grabacion c = (Resultado.invalidTransition, c) ∧
    (Camara.iniciar_grabacion c).2.estado = EstadoCamara.apagado ∧
    (c.grabando = false → (Camara.iniciar_grabacion c).2.grabando = false) := by
  have he : Camara.iniciar_grabacion c = (Resultado.invalidTransition, c) := by
    unfold Camara.iniciar_grabacion
    rw [h]
  refine ⟨he, ?_, ?_⟩
  · rw [he]; exact h
  · intro hg; rw [he]; exact hg

/-- C8 witness: a freshly constructed camera, which is off with a clear
flag. -/
theorem C8_iniciar_grabacion_apagada_testigo :
    (CamaraSeguridad "CAM-ENTRADA-01").estado = EstadoCamara.apagado ∧
    (Camara.iniciar_grabacion (CamaraSeguridad "CAM-ENTRADA-01")
      = (Resultado.invalidTransition, CamaraSeguridad "CAM-ENTRADA-01") ∧
     (Camara.iniciar_grabacion (CamaraSeguridad "CAM-ENTRADA-01")).2.estado = EstadoCamara.apagado ∧
     ((CamaraSeguridad "CAM-ENTRADA-01").grabando = false →
       (Camara.iniciar_grabacion (CamaraSeguridad "CAM-ENTRADA-01")).2.grabando = false)) :=
  ⟨rfl, C8_iniciar_grabacion_apagada (CamaraSeguridad "CAM-ENTRADA-01") rfl⟩

/-- Admissibility of one operation for the amended light invariant: a
`setIntensidad` call must happen while the light is `encendido`; the other
operations are unrestricted. -/
def opPermitida (l : Luz) : OpLuz → Bool
  | OpLuz.setIntensidad _ => decide (l.estado = EstadoLuz.encendido)
  | _ => true

/-- Validity of a call sequence for the amended light invariant: every
`setIntensidad` call happens while the light is `encendido`. -/
def opsConLuzEncendida (l : Luz) : List OpLuz → Bool
  | [] => true
  | op :: ops => opPermitida l op && opsConLuzEncendida (aplicarOpLuz l op) ops

/-- `setIntensidad` never changes the state field. -/
theorem setIntensidad_estado (l : Luz) (v : Int) :
    (Luz.setIntensidad l v).2.estado = l.estado := by
  unfold Luz.setIntensidad
  split <;> rfl

/-- Each single permitted operation establishes "off implies intensity
zero": `encender` and an on-state `setIntensidad` leave the light on, and
`apagar` zeroes the intensity. -/
theorem aplicarOpLuz_preserva_invariante (l : Luz) (op : OpLuz)
    (hop : opPermitida l op = true) :
    (aplicarOpLuz l op).estado = EstadoLuz.apagado → (aplicarOpLuz l op).intensidad = 0 := by
  cases op with
  | encender =>
      intro h
      exact absurd h (by simp [aplicarOpLuz, Luz.encender])
  | apagar =>
      intro _
      rfl
  | setIntensidad v =>
      intro h
      have hon : l.estado = EstadoLuz.encendido := by
        simpa [opPermitida] using hop
      have hst : (aplicarOpLuz l (OpLuz.setIntensidad v)).estado = l.estado :=
        setIntensidad_estado l v
      rw [hst, hon] at h
      exact absurd h (by simp)

/-- The invariant "off implies intensity zero" is preserved by every valid
call sequence. -/
theorem aplicarOpsLuz_preserva_invariante (ops : List OpLuz) (l : Luz)
    (hinv : l.estado = EstadoLuz.apagado → l.intensidad = 0)
    (hops : opsConLuzEncendida l ops = true) :
    (aplicarOpsLuz l ops).estado = EstadoLuz.apagado → (aplicarOpsLuz l ops).intensidad = 0 := by
  induction ops generalizing l with
  | nil => exact hinv
  | cons op ops ih =>
      rw [opsConLuzEncendida, Bool.and_eq_true] at hops
      exact ih (aplicarOpLuz l op)
        (aplicarOpLuz_preserva_invariante l op hops.1) hops.2

/-- C3 counterexample: the claim quantifies over all lights reachable by
construction plus any operation sequence, but the setter stores an in-range
intensity even while the light is off (only the confirmation print is gated
on the state).  A light constructed with intensity `0` and then given
`setIntensidad 30` while still off is off with intensity `30`. -/
theorem C3_contraejemplo_setIntensidad_apagada :
    (Luz.setIntensidad (LuzInteligente "LUZ-SALA-01" 0) 30).2.estado = EstadoLuz.apagado ∧
    (Luz.setIntensidad (LuzInteligente "LUZ-SALA-01" 0) 30).2.intensidad = 30 := by
  refine ⟨rfl, rfl⟩

/-- C3 (amended): for every light constructed with intensity `0` and every
operation sequence in which `setIntensidad` is only called while the light
is on, whenever the state is off the intensity is `0`. -/
theorem C3_apagada_implica_intensidad_cero (id : String) (ops : List OpLuz)
    (hops : opsConLuzEncendida (LuzInteligente id 0) ops = true)
    (hoff : (aplicarOpsLuz (LuzInteligente id 0) ops).estado = EstadoLuz.apagado) :
    (aplicarOpsLuz (LuzInteligente id 0) ops).intensidad = 0 :=
  aplicarOpsLuz_preserva_invariante ops (LuzInteligente id 0) (fun _ => rfl) hops hoff

/-- C3 witness: switch on, set the intensity to 70 while on, switch off. -/
theorem C3_apagada_implica_intensidad_cero_testigo :
    opsConLuzEncendida (LuzInteligente "LUZ-COCINA-01" 0)
        [OpLuz.encender, OpLuz.setIntensidad 70, OpLuz.apagar] = true ∧
    (aplicarOpsLuz (LuzInteligente "LUZ-COCINA-01" 0)
        [OpLuz.encender, OpLuz.setIntensidad 70, OpLuz.apagar]).intensidad = 0 :=
  ⟨by decide,
   C3_apagada_implica_intensidad_cero "LUZ-COCINA-01"
     [OpLuz.encender, OpLuz.setIntensidad 70, OpLuz.apagar] (by decide) (by decide)⟩

/-- If no sensor in the list has its flag set, the scene's scanning loop
finds nothing. -/
theorem buscar_none_de_ningun (ds : List Dispositivo)
    (h : ningunSensorConMovimiento ds = true) :
    buscarSensorActivado ds = none := by
  induction ds with
  | nil => rfl
  | cons d ds ih =>
      rw [ningunSensorConMovimiento, List.all_cons, Bool.and_eq_true] at h
      cases d with
      | luz l => exact ih h.2
      | camara c => exact ih h.2
      | sensor s =>
          have hflag : s.movimiento_detectado = false := by
            simpa using h.1
          simp only [buscarSensorActivado, hflag, if_false, Bool.false_eq_true]
          exact ih h.2

/-- C5: running `"alerta_movimiento"` on a registry with no triggered sensor
reports that no motion was detected and returns the registry unchanged; in
particular the full report is identical before and after. -/
theorem C5_sin_movimiento_no_cambia_nada (casa : CasaInteligente)
    (h : ningunSensorConMovimiento casa.dispositivos = true) :
    CasaInteligente.ejecutar_escena casa "alerta_movimiento"
      = (EscenaResultado.noMotionDetected, casa) ∧
    CasaInteligente.mostrar_todos (CasaInteligente.ejecutar_escena casa "alerta_movimiento").2
      = CasaInteligente.mostrar_todos casa := by
  have hb := buscar_none_de_ningun casa.dispositivos h
  have he : CasaInteligente.ejecutar_escena casa "alerta_movimiento"
      = (EscenaResultado.noMotionDetected, casa) := by
    unfold CasaInteligente.ejecutar_escena
    rw [if_pos rfl, hb]
  exact ⟨he, by rw [he]⟩

/-- C5 witness: a registry with a light, a camera in standby and a sensor
whose flag is clear. -/
theorem C5_sin_movimiento_no_cambia_nada_testigo :
    ningunSensorConMovimiento
      (CasaInteligente.mk "Hogar Principal"
        [Dispositivo.luz (LuzInteligente "LUZ-SALA-01" 20),
         Dispositivo.camara { id_dispositivo := "CAM-ENTRADA-01", estado := EstadoCamara.standby, grabando := false },
         Dispositivo.sensor { id_dispositivo := "SEN-PUERTA-01", estado := EstadoSensor.activo, movimiento_detectado := false }]).dispositivos = true ∧
    (CasaInteligente.ejecutar_escena
      (CasaInteligente.mk "Hogar Principal"
        [Dispositivo.luz (LuzInteligente "LUZ-SALA-01" 20),
         Dispositivo.camara { id_dispositivo := "CAM-ENTRADA-01", estado := EstadoCamara.standby, grabando := false },
         Dispositivo.sensor { id_dispositivo := "SEN-PUERTA-01", estado := EstadoSensor.activo, movimiento_detectado := false }])
      "alerta_movimiento"
      = (EscenaResultado.noMotionDetected,
         CasaInteligente.mk "Hogar Principal"
          [Dispositivo.luz (LuzInteligente "LUZ-SALA-01" 20),
           Dispositivo.camara { id_dispositivo := "CAM-ENTRADA-01", estado := EstadoCamara.standby, grabando := false },
           Dispositivo.sensor { id_dispositivo := "SEN-PUERTA-01", estado := EstadoSensor.activo, movimiento_detectado := false }]) ∧
     CasaInteligente.mostrar_todos
       (CasaInteligente.ejecutar_escena
         (CasaInteligente.mk "Hogar Principal"
           [Dispositivo.luz (LuzInteligente "LUZ-SALA-01" 20),
            Dispositivo.camara { id_dispositivo := "CAM-ENTRADA-01", estado := EstadoCamara.standby, grabando := false },
            Dispositivo.sensor { id_dispositivo := "SEN-PUERTA-01", estado := EstadoSensor.activo, movimiento_detectado := false }])
         "alerta_movimiento").2
       = CasaInteligente.mostrar_todos
          (CasaInteligente.mk "Hogar Principal"
            [Dispositivo.luz (LuzInteligente "LUZ-SALA-01" 20),
             Dispositivo.camara { id_dispositivo := "CAM-ENTRADA-01", estado := EstadoCamara.standby, grabando := false },
             Dispositivo.sensor { id_dispositivo := "SEN-PUERTA-01", estado := EstadoSensor.activo, movimiento_detectado := false }])) :=
  ⟨by decide,
   C5_sin_movimiento_no_cambia_nada
     (CasaInteligente.mk "Hogar Principal"
       [Dispositivo.luz (LuzInteligente "LUZ-SALA-01" 20),
        Dispositivo.camara { id_dispositivo := "CAM-ENTRADA-01", estado := EstadoCamara.standby, grabando := false },
        Dispositivo.sensor { id_dispositivo := "SEN-PUERTA-01", estado := EstadoSensor.activo, movimiento_detectado := false }])
     (by decide)⟩

/-- C6: running any scene other than `"alerta_movimiento"` reports that the
scene was not recognized and returns the registry unchanged; the full report
is identical before and after. -/
theorem C6_escena_desconocida_no_cambia_nada (casa : CasaInteligente) (nombre : String)
    (h : nombre ≠ "alerta_movimiento") :
    CasaInteligente.ejecutar_escena casa nombre = (EscenaResultado.unknownScene, casa) ∧
    CasaInteligente.mostrar_todos (CasaInteligente.ejecutar_escena casa nombre).2
      = CasaInteligente.mostrar_todos casa := by
  have he : CasaInteligente.ejecutar_escena casa nombre
      = (EscenaResultado.unknownScene, casa) := by
    unfold CasaInteligente.ejecutar_escena
    rw [if_neg h]
  exact ⟨he, by rw [he]⟩

/-- C6 witness: the scene name `"escena_nocturna"` on a registry with one
light and one triggered sensor. -/
theorem C6_escena_desconocida_no_cambia_nada_testigo :
    "escena_nocturna" ≠ "alerta_movimiento" ∧
    (CasaInteligente.ejecutar_escena
      (CasaInteligente.mk "Hogar Principal"
        [Dispositivo.luz (LuzInteligente "LUZ-SALA-01" 0),
         Dispositivo.sensor { id_dispositivo := "SEN-PUERTA-01", estado := EstadoSensor.activo, movimiento_detectado := true }])
      "escena_nocturna"
      = (EscenaResultado.unknownScene,
         CasaInteligente.mk "Hogar Principal"
          [Dispositivo.luz (LuzInteligente "LUZ-SALA-01" 0),
           Dispositivo.sensor { id_dispositivo := "SEN-PUERTA-01", estado := EstadoSensor.activo, movimiento_detectado := true }]) ∧
     CasaInteligente.mostrar_todos
       (CasaInteligente.ejecutar_escena
         (CasaInteligente.mk "Hogar Principal"
           [Dispositivo.luz (LuzInteligente "LUZ-SALA-01" 0),
            Dispositivo.sensor { id_dispositivo := "SEN-PUERTA-01", estado := EstadoSensor.activo, movimiento_detectado := true }])
         "escena_nocturna").2
       = CasaInteligente.mostrar_todos
          (CasaInteligente.mk "Hogar Principal"
            [Dispositivo.luz (LuzInteligente "LUZ-SALA-01" 0),
             Dispositivo.sensor { id_dispositivo := "SEN-PUERTA-01", estado := EstadoSensor.activo, movimiento_detectado := true }])) :=
  ⟨by decide,
   C6_escena_desconocida_no_cambia_nada
     (CasaInteligente.mk "Hogar Principal"
       [Dispositivo.luz (LuzInteligente "LUZ-SALA-01" 0),
        Dispositivo.sensor { id_dispositivo := "SEN-PUERTA-01", estado := EstadoSensor.activo, movimiento_detectado := true }])
     "escena_nocturna" (by decide)⟩

/-- The scene's action on a light: switched on with intensity `100`. -/
theorem accionAlerta_luz_eq (l : Luz) :
    accionAlerta (Dispositivo.luz l)
      = Dispositivo.luz { l with estado := EstadoLuz.encendido, intensidad := 100 } := by
  have h100 : (0 : Int) ≤ 100 ∧ (100 : Int) ≤ 100 := by decide
  simp [accionAlerta, Luz.encender, Luz.setIntensidad, h100]

/-- The scene's action leaves a sensor untouched. -/
theorem accionAlerta_sensor_eq (s : Sensor) :
    accionAlerta (Dispositivo.sensor s) = Dispositivo.sensor s := rfl

/-- The scene's action on a camera always yields a camera in the
`grabando` state. -/
theorem accionAlerta_camara_estado (c : Camara) :
    ∃ c2 : Camara, accionAlerta (Dispositivo.camara c) = Dispositivo.camara c2 ∧
      c2.estado = EstadoCamara.grabando := by
  obtain ⟨id, st, g⟩ := c
  cases st with
  | apagado => exact ⟨_, rfl, rfl⟩
  | standby => exact ⟨_, rfl, rfl⟩
  | grabando => exact ⟨_, rfl, rfl⟩

/-- If some sensor in the list has its flag set, the scanning loop finds
one (with its flag set). -/
theorem buscar_some_de_algun (ds : List Dispositivo)
    (h : algunSensorConMovimiento ds = true) :
    ∃ s : Sensor, buscarSensorActivado ds = some s := by
  induction ds with
  | nil => simp [algunSensorConMovimiento] at h
  | cons d ds ih =>
      rw [algunSensorConMovimiento, List.any_cons, Bool.or_eq_true] at h
      cases d with
      | luz l =>
          rcases h with h | h
          · exact absurd h (by simp)
          · exact ih h
      | camara c =>
          rcases h with h | h
          · exact absurd h (by simp)
          · exact ih h
      | sensor s =>
          cases hf : s.movimiento_detectado with
          | true => exact ⟨s, by simp [buscarSensorActivado, hf]⟩
          | false =>
              rcases h with h | h
              · have h2 : s.movimiento_detectado = true := h
                rw [hf] at h2
                exact Bool.noConfusion h2
              · obtain ⟨s2, hs2⟩ := ih h
                exact ⟨s2, by simp [buscarSensorActivado, hf, hs2]⟩

/-- C4: running `"alerta_movimiento"` on a registry in which some sensor has
its motion flag set leaves every light switched on with intensity `100` and
every camera in the `grabando` state. -/
theorem C4_alerta_movimiento_activa_todo (casa : CasaInteligente)
    (h : algunSensorConMovimiento casa.dispositivos = true) :
    ∀ d ∈ (CasaInteligente.ejecutar_escena casa "alerta_movimiento").2.dispositivos,
      (∀ l : Luz, d = Dispositivo.luz l →
          l.estado = EstadoLuz.encendido ∧ l.intensidad = 100) ∧
      (∀ c : Camara, d = Dispositivo.camara c → c.estado = EstadoCamara.grabando) := by
  obtain ⟨s, hs⟩ := buscar_some_de_algun casa.dispositivos h
  have he : (CasaInteligente.ejecutar_escena casa "alerta_movimiento").2.dispositivos
      = casa.dispositivos.map accionAlerta := by
    unfold CasaInteligente.ejecutar_escena
    rw [if_pos rfl, hs]
  rw [he]
  intro d hd
  rw [List.mem_map] at hd
  obtain ⟨d0, _, rfl⟩ := hd
  constructor
  · intro l hl
    cases d0 with
    | luz l0 =>
        rw [accionAlerta_luz_eq] at hl
        injection hl with h2
        subst h2
        exact ⟨rfl, rfl⟩
    | camara c0 =>
        obtain ⟨c2, hc2, _⟩ := accionAlerta_camara_estado c0
        rw [hc2] at hl
        exact absurd hl (by simp)
    | sensor s0 =>
        rw [accionAlerta_sensor_eq] at hl
        exact absurd hl (by simp)
  · intro c hc
    cases d0 with
    | luz l0 =>
        rw [accionAlerta_luz_eq] at hc
        exact absurd hc (by simp)
    | camara c0 =>
        obtain ⟨c2, hc2, hst⟩ := accionAlerta_camara_estado c0
        rw [hc2] at hc
        injection hc with h2
        subst h2
        exact hst
    | sensor s0 =>
        rw [accionAlerta_sensor_eq] at hc
        exact absurd hc (by simp)

/-- C4 witness: a registry with an off light at intensity `20`, an off
camera, a recording camera and a triggered sensor. -/
theorem C4_alerta_movimiento_activa_todo_testigo :
    algunSensorConMovimiento
      (CasaInteligente.mk "Hogar Principal"
        [Dispositivo.luz (LuzInteligente "LUZ-SALA-01" 20),
         Dispositivo.camara (CamaraSeguridad "CAM-ENTRADA-01"),
         Dispositivo.camara { id_dispositivo := "CAM-PATIO-01", estado := EstadoCamara.grabando, grabando := true },
         Dispositivo.sensor { id_dispositivo := "SEN-PUERTA-01", estado := EstadoSensor.activo, movimiento_detectado := true }]).dispositivos = true ∧
    (∀ d ∈ (CasaInteligente.ejecutar_escena
        (CasaInteligente.mk "Hogar Principal"
          [Dispositivo.luz (LuzInteligente "LUZ-SALA-01" 20),
           Dispositivo.camara (CamaraSeguridad "CAM-ENTRADA-01"),
           Dispositivo.camara { id_dispositivo := "CAM-PATIO-01", estado := EstadoCamara.grabando, grabando := true },
           Dispositivo.sensor { id_dispositivo := "SEN-PUERTA-01", estado := EstadoSensor.activo, movimiento_detectado := true }])
        "alerta_movimiento").2.dispositivos,
      (∀ l : Luz, d = Dispositivo.luz l →
          l.estado = EstadoLuz.encendido ∧ l.intensidad = 100) ∧
      (∀ c : Camara, d = Dispositivo.camara c → c.estado = EstadoCamara.grabando)) :=
  ⟨by decide,
   C4_alerta_movimiento_activa_todo
     (CasaInteligente.mk "Hogar Principal"
       [Dispositivo.luz (LuzInteligente "LUZ-SALA-01" 20),
        Dispositivo.camara (CamaraSeguridad "CAM-ENTRADA-01"),
        Dispositivo.camara { id_dispositivo := "CAM-PATIO-01", estado := EstadoCamara.grabando, grabando := true },
        Dispositivo.sensor { id_dispositivo := "SEN-PUERTA-01", estado := EstadoSensor.activo, movimiento_detectado := true }])
     (by decide)⟩

/-- The scanning loop sees the same sensors before and after the action
phase, since the action never touches a sensor. -/
theorem buscar_map_accionAlerta (ds : List Dispositivo) :
    buscarSensorActivado (ds.map accionAlerta) = buscarSensorActivado ds := by
  induction ds with
  | nil => rfl
  | cons d ds ih =>
      cases d with
      | luz l =>
          rw [List.map_cons, accionAlerta_luz_eq]
          exact ih
      | camara c =>
          rw [List.map_cons]
          obtain ⟨c2, hc2, _⟩ := accionAlerta_camara_estado c
          rw [hc2]
          exact ih
      | sensor s =>
          rw [List.map_cons, accionAlerta_sensor_eq]
          cases hf : s.movimiento_detectado with
          | true => simp [buscarSensorActivado, hf]
          | false => simpa [buscarSensorActivado, hf] using ih

/-- The scene's per-device action is idempotent. -/
theorem accionAlerta_idem (d : Dispositivo) :
    accionAlerta (accionAlerta d) = accionAlerta d := by
  cases d with
  | luz l => rw [accionAlerta_luz_eq, accionAlerta_luz_eq]
  | camara c =>
      obtain ⟨id, st, g⟩ := c
      cases st with
      | apagado => rfl
      | standby => rfl
      | grabando => rfl
  | sensor s => rfl

/-- Applying the action phase twice gives the same device list as applying
it once. -/
theorem map_accionAlerta_idem (ds : List Dispositivo) :
    (ds.map accionAlerta).map accionAlerta = ds.map accionAlerta := by
  induction ds with
  | nil => rfl
  | cons d ds ih =>
      rw [List.map_cons, List.map_cons, accionAlerta_idem, ih]

/-- The sensors are unchanged by the action phase. -/
theorem sensoresDe_map_accionAlerta (ds : List Dispositivo) :
    sensoresDe (ds.map accionAlerta) = sensoresDe ds := by
  induction ds with
  | nil => rfl
  | cons d ds ih =>
      cases d with
      | luz l =>
          rw [List.map_cons, accionAlerta_luz_eq]
          exact ih
      | camara c =>
          rw [List.map_cons]
          obtain ⟨c2, hc2, _⟩ := accionAlerta_camara_estado c
          rw [hc2]
          exact ih
      | sensor s =>
          rw [List.map_cons, accionAlerta_sensor_eq]
          show s :: sensoresDe (ds.map accionAlerta) = s :: sensoresDe ds
          rw [ih]

/-- C10: a `"alerta_movimiento"` run that handles motion clears no sensor
flag — the registry after the run has exactly the sensors it had before —
and running the scene again immediately yields the same outcome and the same
registry (the action phase is idempotent). -/
theorem C10_alerta_movimiento_idempotente (casa casa2 : CasaInteligente) (sid : String)
    (h : CasaInteligente.ejecutar_escena casa "alerta_movimiento"
          = (EscenaResultado.motionHandled sid, casa2)) :
    sensoresDe casa2.dispositivos = sensoresDe casa.dispositivos ∧
    CasaInteligente.ejecutar_escena casa2 "alerta_movimiento"
      = (EscenaResultado.motionHandled sid, casa2) := by
  unfold CasaInteligente.ejecutar_escena at h
  rw [if_pos rfl] at h
  cases hb : buscarSensorActivado casa.dispositivos with
  | none =>
      rw [hb] at h
      exact absurd h (by simp)
  | some s =>
      rw [hb, Prod.mk.injEq] at h
      obtain ⟨h1, h2⟩ := h
      injection h1 with hid
      have hd2 : casa2.dispositivos = casa.dispositivos.map accionAlerta := by
        rw [← h2]
      constructor
      · rw [hd2, sensoresDe_map_accionAlerta]
      · have hbb : buscarSensorActivado casa2.dispositivos = some s := by
          rw [hd2, buscar_map_accionAlerta, hb]
        unfold CasaInteligente.ejecutar_escena
        rw [if_pos rfl, hbb, Prod.mk.injEq]
        constructor
        · rw [hid]
        · have hmm : casa2.dispositivos.map accionAlerta = casa2.dispositivos := by
            rw [hd2, map_accionAlerta_idem]
          rw [hmm]

/-- C10 witness: a registry with one off light and one triggered sensor; the
first run switches the light on at `100` and a second run reproduces the
same outcome and registry. -/
theorem C10_alerta_movimiento_idempotente_testigo :
    CasaInteligente.ejecutar_escena
      (CasaInteligente.mk "Hogar Principal"
        [Dispositivo.luz (LuzInteligente "LUZ-SALA-01" 0),
         Dispositivo.sensor { id_dispositivo := "SEN-PUERTA-01", estado := EstadoSensor.activo, movimiento_detectado := true }])
      "alerta_movimiento"
      = (EscenaResultado.motionHandled "SEN-PUERTA-01",
         CasaInteligente.mk "Hogar Principal"
          [Dispositivo.luz { id_dispositivo := "LUZ-SALA-01", estado := EstadoLuz.encendido, intensidad := 100 },
           Dispositivo.sensor { id_dispositivo := "SEN-PUERTA-01", estado := EstadoSensor.activo, movimiento_detectado := true }]) ∧
    (sensoresDe
       (CasaInteligente.mk "Hogar Principal"
         [Dispositivo.luz { id_dispositivo := "LUZ-SALA-01", estado := EstadoLuz.encendido, intensidad := 100 },
          Dispositivo.sensor { id_dispositivo := "SEN-PUERTA-01", estado := EstadoSensor.activo, movimiento_detectado := true }]).dispositivos
       = sensoresDe
          (CasaInteligente.mk "Hogar Principal"
            [Dispositivo.luz (LuzInteligente "LUZ-SALA-01" 0),
             Dispositivo.sensor { id_dispositivo := "SEN-PUERTA-01", estado := EstadoSensor.activo, movimiento_detectado := true }]).dispositivos ∧
     CasaInteligente.ejecutar_escena
       (CasaInteligente.mk "Hogar Principal"
         [Dispositivo.luz { id_dispositivo := "LUZ-SALA-01", estado := EstadoLuz.encendido, intensidad := 100 },
          Dispositivo.sensor { id_dispositivo := "SEN-PUERTA-01", estado := EstadoSensor.activo, movimiento_detectado := true }])
       "alerta_movimiento"
       = (EscenaResultado.motionHandled "SEN-PUERTA-01",
          CasaInteligente.mk "Hogar Principal"
           [Dispositivo.luz { id_dispositivo := "LUZ-SALA-01", estado := EstadoLuz.encendido, intensidad := 100 },
            Dispositivo.sensor { id_dispositivo := "SEN-PUERTA-01", estado := EstadoSensor.activo, movimiento_detectado := true }])) :=
  ⟨by decide,
   C10_alerta_movimiento_idempotente
     (CasaInteligente.mk "Hogar Principal"
       [Dispositivo.luz (LuzInteligente "LUZ-SALA-01" 0),
        Dispositivo.sensor { id_dispositivo := "SEN-PUERTA-01", estado := EstadoSensor.activo, movimiento_detectado := true }])
     (CasaInteligente.mk "Hogar Principal"
       [Dispositivo.luz { id_dispositivo := "LUZ-SALA-01", estado := EstadoLuz.encendido, intensidad := 100 },
        Dispositivo.sensor { id_dispositivo := "SEN-PUERTA-01", estado := EstadoSensor.activo, movimiento_detectado := true }])
     "SEN-PUERTA-01" (by decide)⟩
